import Mathlib

/-!
Verification of the output-serialization layer of `pdb2pqr` (`pdb2pqr/io.py`).

The Python functions are shallowly embedded as executable Lean definitions:
Python strings become Lean `String`s manipulated through character-list
helpers (so that every definition reduces in the kernel), Python machine
floats become exact rationals represented as unreduced integer fractions
(`Flt`), Python exceptions become `Except`, and the stateful logging filter
becomes explicit state passing.  External collaborators that do not live in
`io.py` (the `Atom` render methods, the `pdb` header record classes, the
filesystem, the network) are passed in as parameters, mirroring how `io.py`
only ever calls through their interfaces.
-/

deriving instance DecidableEq for Except

namespace Pdb2Pqr

/-! ## String helpers (kernel-reducible models of the Python primitives) -/

/-- Whitespace characters recognised by Python `str.split()` (ASCII subset). -/
def isWs (c : Char) : Bool :=
  c == ' ' || c == '\t' || c == '\n' || c == '\r' || c == '\x0b' || c == '\x0c'

/-- Worker for `pySplit`: accumulates the current (reversed) token. -/
def splitWsAux : List Char → List Char → List String
  | [], acc => if acc.isEmpty then [] else [⟨acc.reverse⟩]
  | c :: rest, acc =>
    if isWs c then
      (if acc.isEmpty then splitWsAux rest [] else ⟨acc.reverse⟩ :: splitWsAux rest [])
    else splitWsAux rest (c :: acc)

/-- Python `str.split()` with no argument: split on runs of whitespace and
drop empty tokens. -/
def pySplit (s : String) : List String := splitWsAux s.data []

/-- Python `str.startswith`. -/
def pyStartsWith (s pre : String) : Bool := pre.data.isPrefixOf s.data

/-- Uppercase one ASCII character. -/
def charUpper (c : Char) : Char :=
  if 'a' ≤ c ∧ c ≤ 'z' then Char.ofNat (c.toNat - 32) else c

/-- Lowercase one ASCII character. -/
def charLower (c : Char) : Char :=
  if 'A' ≤ c ∧ c ≤ 'Z' then Char.ofNat (c.toNat + 32) else c

/-- Python `str.upper()` (ASCII). -/
def strUpper (s : String) : String := ⟨s.data.map charUpper⟩

/-- Python `str.lower()` (ASCII). -/
def strLower (s : String) : String := ⟨s.data.map charLower⟩

/-- Decimal digit character. -/
def digitChar : Nat → Char
  | 0 => '0' | 1 => '1' | 2 => '2' | 3 => '3' | 4 => '4'
  | 5 => '5' | 6 => '6' | 7 => '7' | 8 => '8' | _ => '9'

/-- Decimal digits of `n` (fuelled worker, fuel `n + 1` always suffices). -/
def natDigitsAux : Nat → Nat → List Char
  | 0, _ => []
  | fuel + 1, n =>
    if n < 10 then [digitChar n] else natDigitsAux fuel (n / 10) ++ [digitChar (n % 10)]

/-- Decimal rendering of a natural number. -/
def natRepr (n : Nat) : String := ⟨natDigitsAux (n + 1) n⟩

/-- Decimal rendering of an integer. -/
def intRepr (i : Int) : String := (if i < 0 then "-" else "") ++ natRepr i.natAbs

/-- Pad on the left with zeros to width `w` (Python `%0wd`). -/
def padZeros (w : Nat) (s : String) : String :=
  ⟨List.replicate (w - s.data.length) '0' ++ s.data⟩

/-- Right-justify in a field of width `w` (Python `:>w`). -/
def rjust (w : Nat) (s : String) : String :=
  ⟨List.replicate (w - s.data.length) ' ' ++ s.data⟩

/-- Left-justify in a field of width `w` (Python `:<w`). -/
def ljust (w : Nat) (s : String) : String :=
  ⟨s.data ++ List.replicate (w - s.data.length) ' '⟩

/-- Python `sep.join(xs)`. -/
def strIntercalate (sep : String) : List String → String
  | [] => ""
  | [x] => x
  | x :: xs => x ++ sep ++ strIntercalate sep xs

/-- Worker for `splitLines`. -/
def splitLinesAux : List Char → List Char → List String
  | [], acc => [⟨acc.reverse⟩]
  | c :: rest, acc =>
    if c == '\n' then ⟨acc.reverse⟩ :: splitLinesAux rest []
    else splitLinesAux rest (c :: acc)

/-- Split a string at newline characters (Python `str.split("\n")`). -/
def splitLines (s : String) : List String := splitLinesAux s.data []

/-- Number of occurrences of `pat` as a substring, counted at every start
position (worker over character lists). -/
def countSubstrChars (pat : List Char) : List Char → Nat
  | [] => 0
  | c :: rest => (if pat.isPrefixOf (c :: rest) then 1 else 0) + countSubstrChars pat rest

/-- Number of occurrences of `pat` as a substring of `s`. -/
def countSubstr (pat s : String) : Nat := countSubstrChars pat.data s.data

/-- Substring test. -/
def containsSubstr (s pat : String) : Bool := decide (0 < countSubstr pat s)

/-! ## Python floats as exact rationals

Machine floats are modelled as exact rationals held as unreduced integer
fractions `num / den` with `den` positive; no normalisation (gcd) is ever
needed because the embedding only constructs, scales, compares and formats
them. -/

/-- A Python float value, modelled exactly as `num / den` (`den > 0`). -/
structure Flt where
  num : Int
  den : Int
  deriving DecidableEq, Repr

/-- The integer `i` as a `Flt`. -/
def Flt.ofInt (i : Int) : Flt := ⟨i, 1⟩

/-- Floor of a `Flt`. -/
def fltFloor (q : Flt) : Int := Int.fdiv q.num q.den

/-- Round to the nearest integer, ties to even — the rounding used by
Python's fixed/scientific float formatting. -/
def roundHalfEven (q : Flt) : Int :=
  let n := fltFloor q
  let r := q.num - n * q.den
  if 2 * r < q.den then n
  else if q.den < 2 * r then n + 1
  else if n % 2 = 0 then n else n + 1

/-- Python `f"{q:.precf}"`: fixed-point with `prec` digits after the point,
round-half-even, sign taken from the value. -/
def pyFmtFixed (prec : Nat) (q : Flt) : String :=
  let scaled := roundHalfEven ⟨q.num * (10 : Int) ^ prec, q.den⟩
  let sign := if q.num < 0 then "-" else ""
  let a := scaled.natAbs
  let ip := a / 10 ^ prec
  let fp := a % 10 ^ prec
  if prec = 0 then sign ++ natRepr ip
  else sign ++ natRepr ip ++ "." ++ padZeros prec (natRepr fp)

/-- Bring a positive fraction into `[1, 10)` by decimal shifts, returning the
shifted fraction and the decimal exponent (fuelled worker). -/
def sciNorm : Nat → Flt → Int → Flt × Int
  | 0, a, e => (a, e)
  | fuel + 1, a, e =>
    if a.num < a.den then sciNorm fuel ⟨a.num * 10, a.den⟩ (e - 1)
    else if 10 * a.den ≤ a.num then sciNorm fuel ⟨a.num, a.den * 10⟩ (e + 1)
    else (a, e)

/-- Python `f"{q:.5E}"` applied to `|q|`: scientific notation with a 1-digit
integer part, 5 fractional digits and a sign-and-2-digit exponent. -/
def pySci5Abs (q : Flt) : String :=
  if q.num = 0 then "0.00000E+00"
  else
    let a : Flt := ⟨(q.num.natAbs : Int), q.den⟩
    let fuel := q.num.natAbs + q.den.natAbs + 1
    let me := sciNorm fuel a 0
    let d := roundHalfEven ⟨me.1.num * 100000, me.1.den⟩
    let de : Int × Int := if d = 1000000 then (100000, me.2 + 1) else (d, me.2)
    let ds := de.1.natAbs
    let estr := (if de.2 < 0 then "-" else "+") ++ padZeros 2 (natRepr de.2.natAbs)
    natRepr (ds / 100000) ++ "." ++ padZeros 5 (natRepr (ds % 100000)) ++ "E" ++ estr

/-- Python `f"{q:< 13.5E}"`: the space sign flag puts `-` or a blank before
the digits, and the result is left-justified in a 13-character field. -/
def pyFmtE13 (q : Flt) : String :=
  ljust 13 ((if q.num < 0 then "-" else " ") ++ pySci5Abs q)

/-- Python `f"{q:>11.6f}"`. -/
def pyFmtF11x6 (q : Flt) : String := rjust 11 (pyFmtFixed 6 q)

/-! ## `DuplicateFilter` (io.py lines 24–46)

The filter's mutable `warn_count` Counter becomes an explicit state
`String → Nat` threaded through the call; the `_LOGGER.warning` side effect
becomes a returned list of emitted notices.  The configured constants
`FILTER_WARNINGS` and `FILTER_WARNINGS_LIMIT` live in `pdb2pqr.config`
(outside `io.py`) and are taken as parameters. -/

/-- A logging record as inspected by `DuplicateFilter.filter`. -/
structure LogRecord where
  levelname : String
  message : String
  deriving DecidableEq, Repr

/-- Result of one `filter` call: the returned Bool, the new counter state,
and any `Suppressing further ...` notices logged during the call. -/
structure FilterResult where
  allowed : Bool
  warn_count : String → Nat
  notices : List String

/-- The notice logged when a watched warning reaches the limit. -/
def suppressNotice (fwarn : String) : String :=
  "Suppressing further \"" ++ fwarn ++ "\" messages"

/-- The `for fwarn in FILTER_WARNINGS` loop of `DuplicateFilter.filter`:
the first watched prefix the message starts with decides the outcome. -/
def filterLoop (limit : Nat) (msg : String) (wc : String → Nat) :
    List String → FilterResult
  | [] => ⟨true, wc, []⟩
  | fwarn :: rest =>
    if pyStartsWith msg fwarn then
      let wc' : String → Nat := fun k => if k = fwarn then wc k + 1 else wc k
      if wc' fwarn > limit then ⟨false, wc', []⟩
      else if wc' fwarn = limit then ⟨false, wc', [suppressNotice fwarn]⟩
      else ⟨true, wc', []⟩
    else filterLoop limit msg wc rest

/-- Method `DuplicateFilter.filter` (io.py lines 31–46). -/
def duplicateFilter (filter_warnings : List String) (limit : Nat)
    (wc : String → Nat) (record : LogRecord) : FilterResult :=
  if record.levelname = "WARNING" then filterLoop limit record.message wc filter_warnings
  else ⟨true, wc, []⟩

/-! ## `print_biomolecule_atoms` (io.py lines 49–78)

Only `serial` (written) and `chain_id` (read) of each atom are touched by
`io.py`; the render methods `get_pdb_string` / `get_cif_string` /
`get_pqr_string` are defined on `pdb2pqr.structures.Atom` (outside this
file) and are passed in as parameters.  The serial mutation is modelled by
returning the updated atom list alongside the text lines. -/

/-- An atom as consumed by `print_biomolecule_atoms`. -/
structure FmtAtom where
  serial : Int
  chain_id : String
  deriving DecidableEq, Repr

/-- The three `Atom` render methods used by `print_biomolecule_atoms`. -/
structure AtomRenderers where
  get_pdb_string : FmtAtom → String
  get_cif_string : FmtAtom → String
  get_pqr_string : FmtAtom → Bool → String

/-- The per-atom line for the selected dialect, rendered after the serial
has been overwritten. -/
def renderDialect (r : AtomRenderers) (chainflag pdbfile ciffile : Bool)
    (a : FmtAtom) : String :=
  if pdbfile then r.get_pdb_string a ++ "\n"
  else if ciffile then r.get_cif_string a ++ "\n"
  else r.get_pqr_string a chainflag ++ "\n"

/-- The `for iatom, atom in enumerate(atomlist)` loop: `iatom` is the
running enumeration index and `currentchain_id` the chain state. -/
def printAtomsLoop (r : AtomRenderers) (chainflag pdbfile ciffile : Bool) :
    List FmtAtom → Nat → Option String → List String × List FmtAtom
  | [], _, _ => ([], [])
  | atom :: rest, iatom, currentchain_id =>
    let ter : List String :=
      match currentchain_id with
      | none => []
      | some c => if atom.chain_id ≠ c then ["TER\n"] else []
    let atom' : FmtAtom := { atom with serial := (iatom : Int) + 1 }
    let line := renderDialect r chainflag pdbfile ciffile atom'
    let res := printAtomsLoop r chainflag pdbfile ciffile rest (iatom + 1) (some atom.chain_id)
    (ter ++ line :: res.1, atom' :: res.2)

/-- Function `print_biomolecule_atoms` (io.py lines 49–78): returns the text lines
and the atom list with its serials overwritten. -/
def print_biomolecule_atoms (r : AtomRenderers) (atomlist : List FmtAtom)
    (chainflag pdbfile ciffile : Bool) :
    Except String (List String × List FmtAtom) :=
  if pdbfile ∧ ciffile then .error "Cannot be both a pdb and cif file. Pick one."
  else
    let res := printAtomsLoop r chainflag pdbfile ciffile atomlist 0 none
    .ok (if ciffile then res.1 else res.1 ++ ["TER\nEND"], res.2)

/-- Spec-side description of the atom body (spec §4.4 / §8): one rendered
line per atom with serial `i + 1`, and a chain-terminator line exactly
between every pair of consecutive atoms whose chain identifiers differ,
before the second atom's line. -/
def specChainBody (ren : FmtAtom → String) : List FmtAtom → Nat → List String
  | [], _ => []
  | [a], i => [ren { a with serial := (i : Int) + 1 }]
  | a :: b :: rest, i =>
    ren { a with serial := (i : Int) + 1 } ::
      ((if b.chain_id ≠ a.chain_id then ["TER\n"] else []) ++
        specChainBody ren (b :: rest) (i + 1))

/-! ## `get_old_header` and `print_pqr_header` (io.py lines 81–217)

The `pdb` header record classes (`pdb.HEADER`, `pdb.TITLE`, ...) live in
`pdb2pqr.pdb`; a block object is modelled by whether its class is one of
the twelve recognised header types plus its `str()` rendering.  The
constant `TITLE_STR` lives in `pdb2pqr.config` and is a parameter. -/

/-- A `pdb` block object as consumed by `get_old_header`. -/
structure PdbRecord where
  is_header : Bool
  text : String
  deriving DecidableEq, Repr

/-- Function `get_old_header` (io.py lines 81–109): write every record of the
leading run of header-typed records, each followed by a newline. -/
def get_old_header (pdblist : List PdbRecord) : String :=
  String.join ((pdblist.takeWhile (·.is_header)).map (fun r => r.text ++ "\n"))

/-- An atom as consumed by the diagnostic sections of `print_pqr_header`. -/
structure DiagAtom where
  serial : Int
  name : String
  res_name : String
  res_seq : Int
  deriving DecidableEq, Repr

/-- A residue with non-integral net charge, as rendered by
`print_pqr_header` (`str(residue)` plus `residue.charge`). -/
structure DiagResidue where
  display : String
  charge : Flt
  deriving DecidableEq, Repr

/-- Function `print_pqr_header` (io.py lines 112–217).  `title_str` stands for
`config.TITLE_STR`.  Formatting `ph` when it is `None` (while a pKa method
is given) raises in Python, hence the `Except`.  Note the source line 159
reads `head += head + "REMARK   1\n"`, which appends a second copy of
everything built so far. -/
def print_pqr_header (title_str : String) (pdblist : List PdbRecord)
    (atomlist : List DiagAtom) (reslist : List DiagResidue) (charge : Flt)
    (force_field : Option String) (ph_calc_method : Option String)
    (ph : Option Flt) (ffout : Option String)
    (include_old_header : Bool) : Except String String := do
  let ff := match force_field with
    | none => "User force field"
    | some f => strUpper f
  let head0 := strIntercalate "\n"
    ["REMARK   1 PQR file generated by PDB2PQR",
     "REMARK   1 " ++ title_str,
     "REMARK   1",
     "REMARK   1 Forcefield Used: " ++ ff,
     ""]
  let head1 := match ffout with
    | some fo => head0 ++ "REMARK   1 Naming Scheme Used: " ++ fo ++ "\n"
    | none => head0
  let head2 := head1 ++ head1 ++ "REMARK   1\n"
  let head3 ← match ph_calc_method with
    | none => pure head2
    | some m =>
      match ph with
      | none => Except.error "TypeError: unsupported format string passed to NoneType.__format__"
      | some p => pure (head2 ++ strIntercalate "\n"
          ["REMARK   1 pKas calculated by " ++ m ++ " and assigned using pH "
             ++ pyFmtFixed 2 p ++ "\nREMARK   1",
           ""])
  let head4 :=
    if atomlist.length ≠ 0 then
      head3
        ++ strIntercalate "\n"
            ["REMARK   5 WARNING: PDB2PQR was unable to assign charges",
             "REMARK   5 to the following atoms (omitted below):",
             ""]
        ++ String.join (atomlist.map fun atom =>
            "REMARK   5    " ++ intRepr atom.serial ++ " " ++ atom.name ++ " in "
              ++ atom.res_name ++ " " ++ intRepr atom.res_seq ++ "\n")
        ++ strIntercalate "\n"
            ["REMARK   5 This is usually due to the fact that this residue is not",
             "REMARK   5 an amino acid or nucleic acid; or, there are no parameters",
             "REMARK   5 available for the specific protonation state of this",
             "REMARK   5 residue in the selected forcefield.",
             "REMARK   5",
             ""]
    else head3
  let head5 :=
    if reslist.length ≠ 0 then
      head4
        ++ strIntercalate "\n"
            ["REMARK   5 WARNING: Non-integral net charges were found in",
             "REMARK   5 the following residues:",
             ""]
        ++ String.join (reslist.map fun residue =>
            "REMARK   5    " ++ residue.display ++ " - Residue Charge: "
              ++ pyFmtFixed 4 residue.charge ++ "\n")
        ++ "REMARK   5\n"
    else head4
  let head6 := head5 ++ strIntercalate "\n"
    ["REMARK   6 Total charge on this biomolecule: " ++ pyFmtFixed 4 charge
       ++ " e\nREMARK   6",
     ""]
  let head7 :=
    if include_old_header then
      head6
        ++ strIntercalate "\n"
            ["REMARK   7 Original PDB header follows", "REMARK   7", ""]
        ++ get_old_header pdblist
    else head6
  pure head7

/-- The program-identification banner line of the PQR header. -/
def pqrBanner : String := "REMARK   1 PQR file generated by PDB2PQR"

/-! ## Fallible Python primitives -/

/-- Python list indexing `l[i]`: raises `IndexError` when out of range. -/
def pyIndex (l : List α) (i : Nat) : Except String α :=
  match l.get? i with
  | some a => .ok a
  | none => .error "IndexError: list index out of range"

/-- Is `c` a decimal digit? -/
def isDigit (c : Char) : Bool := '0' ≤ c && c ≤ '9'

/-- Value of a digit character. -/
def digitVal (c : Char) : Nat := c.toNat - 48

/-- Consume a maximal run of digits: accumulated value, digit count, rest. -/
def takeDigitsAux (acc cnt : Nat) : List Char → Nat × Nat × List Char
  | [] => (acc, cnt, [])
  | c :: rest =>
    if isDigit c then takeDigitsAux (acc * 10 + digitVal c) (cnt + 1) rest
    else (acc, cnt, c :: rest)

/-- Python `float(s)` for plain decimal literals with optional sign,
fraction and exponent; `none` models a `ValueError`. -/
def pyParseFloat (s : String) : Option Flt :=
  let (sgn, cs1) : Int × List Char :=
    match s.data with
    | '+' :: r => (1, r)
    | '-' :: r => (-1, r)
    | cs => (1, cs)
  let ipr := takeDigitsAux 0 0 cs1
  let fpr : Nat × Nat × List Char :=
    match ipr.2.2 with
    | '.' :: r => takeDigitsAux 0 0 r
    | cs => (0, 0, cs)
  if ipr.2.1 = 0 ∧ fpr.2.1 = 0 then none
  else
    let mantNum : Int := sgn * (ipr.1 * 10 ^ fpr.2.1 + fpr.1)
    let mantDen : Int := (10 : Int) ^ fpr.2.1
    match fpr.2.2 with
    | [] => some ⟨mantNum, mantDen⟩
    | 'e' :: r => pyParseFloatExp mantNum mantDen r
    | 'E' :: r => pyParseFloatExp mantNum mantDen r
    | _ => none
where
  /-- Parse the exponent part after `e`/`E`. -/
  pyParseFloatExp (mantNum mantDen : Int) (cs : List Char) : Option Flt :=
    let (esgn, cs1) : Bool × List Char :=
      match cs with
      | '+' :: r => (true, r)
      | '-' :: r => (false, r)
      | cs' => (true, cs')
    let er := takeDigitsAux 0 0 cs1
    if er.2.1 = 0 ∨ ¬er.2.2.isEmpty then none
    else if esgn then some ⟨mantNum * 10 ^ er.1, mantDen⟩
    else some ⟨mantNum, mantDen * 10 ^ er.1⟩

/-- Python `float(s)` as an `Except` (`ValueError` on failure). -/
def pyFloatE (s : String) : Except String Flt :=
  match pyParseFloat s with
  | some f => .ok f
  | none => .error ("ValueError: could not convert string to float: " ++ s)

/-- Python `int(s)` (optional sign, digits only). -/
def pyIntE (s : String) : Except String Int :=
  let (sgn, cs1) : Int × List Char :=
    match s.data with
    | '+' :: r => (1, r)
    | '-' :: r => (-1, r)
    | cs => (1, cs)
  let dr := takeDigitsAux 0 0 cs1
  if dr.2.1 = 0 ∨ ¬dr.2.2.isEmpty then
    .error ("ValueError: invalid literal for int with base 10: " ++ s)
  else .ok (sgn * dr.1)

/-! ## `read_dx` (io.py lines 563–609) -/

/-- The dictionary built by `read_dx`. -/
structure DxDict where
  grid_spacing : List (List Flt)
  values : List Flt
  number_of_grid_points : Option (Int × Int × Int)
  lower_left_corner : Option (List Flt)
  deriving DecidableEq, Repr

/-- The body of `read_dx`'s `for line in dx_file` loop.  Note `words[0]` is
read before any guard, so a line with no tokens raises `IndexError`. -/
def processDxLine (d : DxDict) (line : String) : Except String DxDict := do
  let words := pySplit line
  let w0 ← pyIndex words 0
  if w0 = "#" ∨ w0 = "attribute" ∨ w0 = "component" then pure d
  else if w0 = "object" then do
    let w1 ← pyIndex words 1
    if w1 = "1" then do
      let n5 ← pyIntE (← pyIndex words 5)
      let n6 ← pyIntE (← pyIndex words 6)
      let n7 ← pyIntE (← pyIndex words 7)
      pure { d with number_of_grid_points := some (n5, n6, n7) }
    else pure d
  else if w0 = "origin" then do
    let o1 ← pyFloatE (← pyIndex words 1)
    let o2 ← pyFloatE (← pyIndex words 2)
    let o3 ← pyFloatE (← pyIndex words 3)
    pure { d with lower_left_corner := some [o1, o2, o3] }
  else if w0 = "delta" then do
    let s1 ← pyFloatE (← pyIndex words 1)
    let s2 ← pyFloatE (← pyIndex words 2)
    let s3 ← pyFloatE (← pyIndex words 3)
    pure { d with grid_spacing := d.grid_spacing ++ [[s1, s2, s3]] }
  else do
    let vs ← words.mapM pyFloatE
    pure { d with values := d.values ++ vs }

/-- Function `read_dx` (io.py lines 563–609) over the list of input lines. -/
def read_dx (lines : List String) : Except String DxDict :=
  lines.foldlM processDxLine ⟨[], [], none, none⟩

/-! ## `write_cube` (io.py lines 612–659) -/

/-- An atom as consumed by `write_cube`. -/
structure CubeAtom where
  serial : Int
  charge : Flt
  x : Flt
  y : Flt
  z : Flt
  deriving DecidableEq, Repr

/-- Fuelled worker for `writeValueLines` (each step consumes at least one
element, so fuel `values.length` always suffices; fuel keeps the recursion
structural so that it reduces in the kernel). -/
def writeValueLinesAux : Nat → List Flt → String
  | _, [] => ""
  | 0, _ :: _ => ""
  | fuel + 1, v :: tl =>
    let chunk := (v :: tl).take 6
    let rest := (v :: tl).drop 6
    let words := chunk.map pyFmtE13
    if rest.isEmpty then strIntercalate " " words
    else strIntercalate " " words ++ "\n" ++ writeValueLinesAux fuel rest

/-- The `for i in range(0, len(values), 6)` loop of `write_cube`: each
iteration writes the 6 values starting at `i`, followed by a newline only
when more than 6 values remain from `i`. -/
def writeValueLines (values : List Flt) : String :=
  writeValueLinesAux values.length values

/-- Everything `write_cube` writes before the grid values: comment line,
orientation line, atom-count/origin line, the three negated-dimension axis
lines, and one line per atom. -/
def writeCubeHead (data : DxDict) (atom_list : List CubeAtom)
    (comment : String) : Except String String := do
  let origin ← match data.lower_left_corner with
    | none => Except.error "TypeError: 'NoneType' object is not subscriptable"
    | some o => pure o
  let o0 ← pyIndex origin 0
  let o1 ← pyIndex origin 1
  let o2 ← pyIndex origin 2
  let num_atoms : Int := atom_list.length
  let np ← match data.number_of_grid_points with
    | none => Except.error "TypeError: 'NoneType' object is not subscriptable"
    | some t => pure t
  let npList : List Int := [np.1, np.2.1, np.2.2]
  let axes ← (List.range 3).mapM fun i => do
    let n ← pyIndex npList i
    let sp ← pyIndex data.grid_spacing i
    let s0 ← pyIndex sp 0
    let s1 ← pyIndex sp 1
    let s2 ← pyIndex sp 2
    pure (rjust 4 (intRepr (-n)) ++ " " ++ pyFmtF11x6 s0 ++ " "
      ++ pyFmtF11x6 s1 ++ " " ++ pyFmtF11x6 s2 ++ "\n")
  let atomLines := atom_list.map fun atom =>
    rjust 4 (intRepr atom.serial) ++ " " ++ pyFmtF11x6 atom.charge ++ " "
      ++ pyFmtF11x6 atom.x ++ " " ++ pyFmtF11x6 atom.y ++ " "
      ++ pyFmtF11x6 atom.z ++ "\n"
  pure (comment ++ "\n"
    ++ "OUTER LOOP: X, MIDDLE LOOP: Y, INNER LOOP: Z\n"
    ++ rjust 4 (intRepr num_atoms) ++ " " ++ pyFmtF11x6 o0 ++ " "
      ++ pyFmtF11x6 o1 ++ " " ++ pyFmtF11x6 o2 ++ "\n"
    ++ String.join axes ++ String.join atomLines)

/-- Function `write_cube` (io.py lines 612–659): the full text written to the file. -/
def write_cube (data : DxDict) (atom_list : List CubeAtom)
    (comment : String) : Except String String := do
  let head ← writeCubeHead data atom_list comment
  pure (head ++ writeValueLines data.values)

/-! ## `generate_atom_site_columns` (io.py lines 734–820) -/

/-- The 21 returned column names paired with the token index each column is
read from, in the order of the source's return tuple (`col_idx` in io.py;
`label_atom_id` and `auth_atom_id` both read token 19). -/
def atom_site_col_idx : List (String × Nat) :=
  [("group_PDB", 0), ("id", 1), ("type_symbol", 2), ("label_atom_id", 19),
   ("label_alt_id", 4), ("label_comp_id", 5), ("label_asym_id", 6),
   ("label_entity_id", 7), ("label_seq_id", 8), ("pdbx_PDB_ins_code", 9),
   ("Cartn_x", 10), ("Cartn_y", 11), ("Cartn_z", 12), ("occupancy", 13),
   ("B_iso_or_equiv", 14), ("pdbx_formal_charge", 15), ("auth_seq_id", 16),
   ("auth_comp_id", 17), ("auth_asym_id", 18), ("auth_atom_id", 19),
   ("pdbx_PDB_model_num", 20)]

/-- Function `generate_atom_site_columns` (io.py lines 734–820): a line is accepted
exactly when its whitespace-tokenized length is 23 or 25; each accepted
line contributes its token at the mapped index to every column (indices are
at most 20, hence in range for every accepted line, so the `getD` default
is never produced). -/
def generate_atom_site_columns (pdb_lines : List String) :
    List (String × List String) :=
  atom_site_col_idx.map fun spec =>
    (spec.1,
      pdb_lines.filterMap fun l =>
        let ws := pySplit l
        if ws.length = 23 ∨ ws.length = 25 then some (ws.getD spec.2 "") else none)

/-! ## `test_for_file` (io.py lines 353–382)

The filesystem probe `Path.is_file` and the module-level constants
`sys.path`, `Path.cwd()` and `config.FORCE_FIELDS` are parameters.  Python
returns either the empty string `""` (for a `None` name) or a `Path`;
`TffResult` keeps the two apart. -/

/-- Result of `test_for_file`: the empty string or a found path. -/
inductive TffResult where
  | emptyString : TffResult
  | filePath : String → TffResult
  deriving DecidableEq, Repr

/-- The candidate paths probed by `test_for_file`'s triple-nested loop, in
loop order: directories (every `sys.path` entry then the working directory,
each with `pdb2pqr/dat` joined on) × name variants (as given, upper,
lower) × suffixes (none, upper-cased type, lower-cased type). -/
def tffCandidates (nm type_ : String) (sys_path : List String)
    (cwd : String) : List String :=
  let test_names := [nm, strUpper nm, strLower nm]
  let test_suffixes := ["", "." ++ strUpper type_, "." ++ strLower type_]
  let test_dirs := (sys_path ++ [cwd]).map (fun p => p ++ "/pdb2pqr/dat")
  test_dirs.flatMap fun d =>
    test_names.flatMap fun tn =>
      test_suffixes.map fun ts => d ++ "/" ++ (tn ++ ts)

/-- Function `test_for_file` (io.py lines 353–382).  The triple-nested loop over
directories, name variants and suffixes returning at the first hit is the
first hit of the candidate list in loop order. -/
def test_for_file (name : Option String) (type_ : String)
    (sys_path : List String) (cwd : String) (force_fields : List String)
    (is_file : String → Bool) : Except String TffResult :=
  match name with
  | none => .ok .emptyString
  | some nm =>
    let nm' := if force_fields.contains (strLower nm) then strUpper nm else nm
    match (tffCandidates nm type_ sys_path cwd).find? is_file with
    | some p => .ok (.filePath p)
    | none => .error ("Unable to find " ++ type_ ++ " file for " ++ nm')

/-! ## `get_pdb_file` (io.py lines 421–446)

`io.py` never imports `requests`; the module-level name used at line 442 is
unbound, so the fetch branch raises `NameError` in this repository.  The
binding is modelled as an `Option`al function: `none` is the state of this
module. -/

/-- The modules bound by the import statements of io.py (lines 2–18). -/
def ioModuleImports : List String :=
  ["logging", "io", "collections", "pathlib", "sys", "gemmi", "psize",
   "inputgen", "cif", "pdb", "definitions", "structures", "config"]

/-- A `requests` HTTP response as consumed by `get_pdb_file`. -/
structure HttpResponse where
  status_code : Int
  text : String
  deriving DecidableEq, Repr

/-- Python `pathlib.Path(name).stem`: final path component without its last
suffix. -/
def pathStem (name : String) : String :=
  let base := (splitOnSlash name.data []).getLastD ""
  let cs := base.data
  if cs.reverse.contains '.' then
    let afterDot := cs.reverse.takeWhile (· ≠ '.')
    let keep := cs.length - afterDot.length - 1
    if keep = 0 then base else ⟨cs.take keep⟩
  else base
where
  /-- Split a character list at `/`. -/
  splitOnSlash : List Char → List Char → List String
    | [], acc => [⟨acc.reverse⟩]
    | c :: rest, acc =>
      if c == '/' then ⟨acc.reverse⟩ :: splitOnSlash rest []
      else splitOnSlash rest (c :: acc)

/-- Function `get_pdb_file` (io.py lines 421–446).  `is_file` and `read_file` model
the filesystem; `requests_get` models the module-level name `requests`
(unbound in io.py, hence `none` there — see `ioModuleImports`). -/
def get_pdb_file (is_file : String → Bool) (read_file : String → String)
    (requests_get : Option (String → HttpResponse)) (name : String) :
    Except String String :=
  if is_file name then .ok (read_file name)
  else
    let url_path := "https://files.rcsb.org/download/" ++ pathStem name ++ ".pdb"
    match requests_get with
    | none => .error "NameError: name 'requests' is not defined"
    | some g =>
      let resp := g url_path
      if resp.status_code ≠ 200 then
        .error ("Got code " ++ intRepr resp.status_code ++ " while retrieving "
          ++ url_path)
      else .ok resp.text

/-! ## Spec-side definitions

These transcribe the spec's wording, to be compared with the definitions
embedded from the source. -/

/-- Spec §4.2: the flattened value sequence divided into chunks of 6
(fuelled worker; each step consumes at least one element). -/
def chunksOfSixAux : Nat → List Flt → List (List Flt)
  | _, [] => []
  | 0, _ :: _ => []
  | fuel + 1, v :: tl => (v :: tl).take 6 :: chunksOfSixAux fuel ((v :: tl).drop 6)

/-- Spec §4.2: the flattened value sequence divided into chunks of 6. -/
def chunksOfSix (l : List Flt) : List (List Flt) := chunksOfSixAux l.length l

/-- The value rendering asserted by the claim: right-justified in the
13-character field (the sign slot as in the code).  To be compared with the
code's `pyFmtE13`, which left-justifies. -/
def claimFmtRight13 (q : Flt) : String :=
  rjust 13 ((if q.num < 0 then "-" else " ") ++ pySci5Abs q)

/-! ## Concrete sample inputs used by the closed theorems and witnesses -/

/-- Sample render methods: dialect tag plus the (overwritten) serial. -/
def sampleRenderers : AtomRenderers :=
  ⟨fun a => "P" ++ intRepr a.serial, fun a => "C" ++ intRepr a.serial,
   fun a _ => "Q" ++ intRepr a.serial⟩

/-- Three atoms on chains A, A, B with stale input serials. -/
def sampleAtoms : List FmtAtom := [⟨90, "A"⟩, ⟨91, "A"⟩, ⟨92, "B"⟩]

/-- The minimal DX grid text of the grid round-trip property (spec §8). -/
def sampleDxLines : List String :=
  ["object 1 class gridpositions counts 2 2 2",
   "origin 0 0 0",
   "delta 1 0 0",
   "delta 0 1 0",
   "delta 0 0 1",
   "1 2 3 4",
   "5 6 7 8"]

/-- A populated 1-point grid with a single value 1.0. -/
def sampleGrid : DxDict :=
  { grid_spacing := [[⟨1, 1⟩, ⟨0, 1⟩, ⟨0, 1⟩], [⟨0, 1⟩, ⟨1, 1⟩, ⟨0, 1⟩],
                     [⟨0, 1⟩, ⟨0, 1⟩, ⟨1, 1⟩]],
    values := [⟨1, 1⟩],
    number_of_grid_points := some (1, 1, 1),
    lower_left_corner := some [⟨0, 1⟩, ⟨0, 1⟩, ⟨0, 1⟩] }

/-- A PQR-style line with exactly 23 whitespace tokens. -/
def sampleCifLine23 : String :=
  "ATOM 1 N N . PRO A 1 1 ? 1.0 2.0 3.0 1.00 0.00 ? 1 PRO A N 1 x y"

/-! ## Theorems -/

set_option maxRecDepth 20000

/-- Claim C1 (code bug at io.py line 159, `head += head + "REMARK   1\n"`):
the header produced by `print_pqr_header` contains the
program-identification banner twice, not once — every section built before
line 159 is emitted twice.  Evaluated at a concrete input (empty diagnostic
lists, no forcefield, no pKa method, no naming scheme). -/
theorem c1_banner_emitted_twice :
    Except.map (countSubstr pqrBanner)
      (print_pqr_header "v" [] [] [] ⟨0, 1⟩ none none none none false)
      = .ok 2 := by
  decide

/-- Claim C2 counterexample: with one watched prefix and limit `L = 1`, the
first matching warning has post-increment count exactly `L`, and the filter
returns `False` (suppresses it) while emitting the one final notice — the
claim says the message would still be allowed. -/
theorem c2_limit_hit_suppressed :
    (duplicateFilter ["W: "] 1 (fun _ => 0) ⟨"WARNING", "W: x"⟩).allowed = false
    ∧ (duplicateFilter ["W: "] 1 (fun _ => 0) ⟨"WARNING", "W: x"⟩).warn_count "W: " = 1
    ∧ (duplicateFilter ["W: "] 1 (fun _ => 0) ⟨"WARNING", "W: x"⟩).notices
        = [suppressNotice "W: "] :=
  ⟨by decide, by decide, by decide⟩

/-- Claim C3 (code bug): io.py never imports `requests` (see
`ioModuleImports`, transcribing lines 2–18), so for a name that is not an
existing file `get_pdb_file` raises `NameError` before any fetch, and that
error message does not identify the URL — no fetch with a descriptive
transport-failure error ever happens in this module. -/
theorem c3_requests_unbound_no_fetch :
    ioModuleImports.contains "requests" = false
    ∧ get_pdb_file (fun _ => false) (fun _ => "") none "1abc"
        = .error "NameError: name 'requests' is not defined"
    ∧ containsSubstr "NameError: name 'requests' is not defined"
        ("https://files.rcsb.org/download/" ++ pathStem "1abc" ++ ".pdb") = false :=
  ⟨by decide, by decide, by decide⟩

/-- Claim C7: reading the minimal grid text yields grid dimensions
`(2, 2, 2)` and 8 values, and writing it back with `write_cube` produces
exactly three lines whose leading dimension field is `-2` — and they are
precisely the three axis lines (lines 4–6 of the output). -/
theorem c7_grid_round_trip :
    Except.map (fun d => (d.number_of_grid_points, d.values.length))
        (read_dx sampleDxLines)
      = .ok (some ((2 : Int), (2 : Int), (2 : Int)), 8)
    ∧ Except.map
        (fun out => ((splitLines out).filter fun l => pyStartsWith l "  -2 ").length)
        ((read_dx sampleDxLines).bind fun d => write_cube d [] "CPMD CUBE FILE.")
      = .ok 3
    ∧ Except.map
        (fun out => (((splitLines out).drop 3).take 3).all fun l => pyStartsWith l "  -2 ")
        ((read_dx sampleDxLines).bind fun d => write_cube d [] "CPMD CUBE FILE.")
      = .ok true :=
  ⟨by decide, by decide, by decide⟩

/-- Claim C8 counterexample: the value `1.0` in the grid block is emitted
as `" 1.00000E+00 "` — left-justified in the 13-character field (trailing
pad) with a blank sign slot, not the right-justified rendering
`"  1.00000E+00"` the claim asserts. -/
theorem c8_not_right_justified :
    Except.map (fun out => (splitLines out).getLastD "")
        (write_cube sampleGrid [] "CPMD CUBE FILE.")
      = .ok (pyFmtE13 ⟨1, 1⟩)
    ∧ pyFmtE13 ⟨1, 1⟩ = " 1.00000E+00 "
    ∧ claimFmtRight13 ⟨1, 1⟩ = "  1.00000E+00"
    ∧ pyFmtE13 ⟨1, 1⟩ ≠ claimFmtRight13 ⟨1, 1⟩ :=
  ⟨by decide, by decide, by decide, by decide⟩

/-- Claim C4 counterexample: on a single accepted 23-token line the
function returns 21 column sequences, not the eighteen the claim states. -/
theorem c4_not_eighteen_columns :
    (generate_atom_site_columns [sampleCifLine23]).length ≠ 18 := by
  decide

/-- If no watched prefix matches the message, the loop falls through and
the record is allowed with nothing changed. -/
theorem filterLoop_no_match (limit : Nat) (msg : String) (wc : String → Nat)
    (fws : List String)
    (h : fws.find? (fun fw => pyStartsWith msg fw) = none) :
    filterLoop limit msg wc fws = ⟨true, wc, []⟩ := by
  induction fws with
  | nil => rfl
  | cons f rest ih =>
    cases hp : pyStartsWith msg f with
    | true => simp [List.find?_cons, hp] at h
    | false =>
      simp only [List.find?_cons, hp] at h
      simp only [filterLoop, hp, Bool.false_eq_true, if_false]
      exact ih h

/-- The loop's outcome is decided by the first watched prefix the message
starts with. -/
theorem filterLoop_first_match (limit : Nat) (msg : String) (wc : String → Nat)
    (fws : List String) (fw : String)
    (h : fws.find? (fun f => pyStartsWith msg f) = some fw) :
    filterLoop limit msg wc fws =
      (let wc' : String → Nat := fun k => if k = fw then wc k + 1 else wc k
       if wc fw + 1 > limit then ⟨false, wc', []⟩
       else if wc fw + 1 = limit then ⟨false, wc', [suppressNotice fw]⟩
       else ⟨true, wc', []⟩) := by
  induction fws with
  | nil => simp [List.find?] at h
  | cons f rest ih =>
    cases hp : pyStartsWith msg f with
    | true =>
      simp only [List.find?_cons, hp, Option.some.injEq] at h
      subst h
      simp only [filterLoop, hp, if_true]
    | false =>
      simp only [List.find?_cons, hp] at h
      simp only [filterLoop, hp, Bool.false_eq_true, if_false]
      exact ih h

/-- Claim C2 (amended): for a warning whose first matching watched prefix
is `fw`, the counter for `fw` is incremented (others untouched); the
message is allowed exactly when the post-increment count is strictly below
the limit; at exactly the limit it is suppressed and the one final
"Suppressing further" notice is emitted; above the limit it is suppressed
silently.  Non-warnings and messages matching no watched prefix pass
through unchanged. -/
theorem c2_throttle_behavior (fws : List String) (limit : Nat)
    (wc : String → Nat) (record : LogRecord) :
    (record.levelname ≠ "WARNING" →
      duplicateFilter fws limit wc record = ⟨true, wc, []⟩)
    ∧ (fws.find? (fun fw => pyStartsWith record.message fw) = none →
      duplicateFilter fws limit wc record = ⟨true, wc, []⟩)
    ∧ ∀ fw, fws.find? (fun f => pyStartsWith record.message f) = some fw →
        record.levelname = "WARNING" →
        (duplicateFilter fws limit wc record).warn_count fw = wc fw + 1
        ∧ (∀ k, k ≠ fw → (duplicateFilter fws limit wc record).warn_count k = wc k)
        ∧ (wc fw + 1 < limit →
            (duplicateFilter fws limit wc record).allowed = true
            ∧ (duplicateFilter fws limit wc record).notices = [])
        ∧ (wc fw + 1 = limit →
            (duplicateFilter fws limit wc record).allowed = false
            ∧ (duplicateFilter fws limit wc record).notices = [suppressNotice fw])
        ∧ (limit < wc fw + 1 →
            (duplicateFilter fws limit wc record).allowed = false
            ∧ (duplicateFilter fws limit wc record).notices = []) := by
  refine ⟨fun h => by simp [duplicateFilter, h], fun h => ?_, fun fw hfind hlvl => ?_⟩
  · unfold duplicateFilter
    split
    · exact filterLoop_no_match _ _ _ _ h
    · rfl
  · have hd : duplicateFilter fws limit wc record
        = filterLoop limit record.message wc fws := by
      simp [duplicateFilter, hlvl]
    rw [hd, filterLoop_first_match limit record.message wc fws fw hfind]
    refine ⟨by split_ifs <;> simp, fun k hk => by split_ifs <;> simp [if_neg hk], ?_, ?_, ?_⟩
    · intro hlt
      rw [if_neg (by omega), if_neg (by omega)]
      exact ⟨rfl, rfl⟩
    · intro heq
      rw [if_neg (by omega), if_pos heq]
      exact ⟨rfl, rfl⟩
    · intro hgt
      rw [if_pos (by omega)]
      exact ⟨rfl, rfl⟩

/-- Claim C2 witness: concrete run with limit 2 — the first matching
warning (post-increment count 1 < 2) is allowed and counted. -/
theorem c2_throttle_behavior_witness :
    (duplicateFilter ["A"] 2 (fun _ => 0) ⟨"WARNING", "A1"⟩).allowed = true
    ∧ (duplicateFilter ["A"] 2 (fun _ => 0) ⟨"WARNING", "A1"⟩).warn_count "A" = 1 :=
  ⟨(((c2_throttle_behavior ["A"] 2 (fun _ => 0) ⟨"WARNING", "A1"⟩).2.2 "A"
      (by decide) rfl).2.2.1 (by decide)).1,
   ((c2_throttle_behavior ["A"] 2 (fun _ => 0) ⟨"WARNING", "A1"⟩).2.2 "A"
      (by decide) rfl).1⟩

/-- The serials assigned by the formatter loop starting at enumeration
index `i` are `i + 1, i + 2, ...` in sequence order, whatever the chain
state and input serials. -/
theorem printAtomsLoop_serials (r : AtomRenderers) (cf pf cif : Bool) :
    ∀ (atoms : List FmtAtom) (i : Nat) (c : Option String),
      (printAtomsLoop r cf pf cif atoms i c).2.map (·.serial)
        = (List.range atoms.length).map (fun k => ((i + k : Nat) : Int) + 1) := by
  intro atoms
  induction atoms with
  | nil => intro i c; simp [printAtomsLoop]
  | cons a rest ih =>
    intro i c
    simp only [printAtomsLoop, List.map_cons, List.length_cons,
      List.range_succ_eq_map, List.map_map]
    rw [ih (i + 1) (some a.chain_id), List.cons.injEq]
    refine ⟨by simp, ?_⟩
    refine List.map_congr_left fun k _ => ?_
    simp only [Function.comp_apply]
    push_cast
    ring

/-- Claim C5: rendering through `print_biomolecule_atoms` overwrites the
atoms' serials with the dense increasing sequence 1, 2, ... in sequence
order, regardless of the serials carried on input. -/
theorem c5_serials_dense (r : AtomRenderers) (atomlist : List FmtAtom)
    (chainflag pdbfile ciffile : Bool) (out : List String × List FmtAtom)
    (h : print_biomolecule_atoms r atomlist chainflag pdbfile ciffile = .ok out) :
    out.2.map (·.serial) = (List.range atomlist.length).map (fun (i : Nat) => (i : Int) + 1) := by
  unfold print_biomolecule_atoms at h
  split at h
  · exact absurd h (by simp)
  · simp only [Except.ok.injEq] at h
    subst h
    calc (printAtomsLoop r chainflag pdbfile ciffile atomlist 0 none).2.map (·.serial)
        = (List.range atomlist.length).map (fun k => ((0 + k : Nat) : Int) + 1) :=
          printAtomsLoop_serials r chainflag pdbfile ciffile atomlist 0 none
      _ = (List.range atomlist.length).map (fun (i : Nat) => (i : Int) + 1) :=
          List.map_congr_left fun k _ => by push_cast; ring

/-- Claim C5 witness: three atoms with stale serials 90, 91, 92 come out
with serials 1, 2, 3. -/
theorem c5_serials_dense_witness :
    ((["Q1\n", "Q2\n", "TER\n", "Q3\n", "TER\nEND"],
        [⟨1, "A"⟩, ⟨2, "A"⟩, ⟨3, "B"⟩]) : List String × List FmtAtom).2.map (·.serial)
      = (List.range sampleAtoms.length).map (fun (i : Nat) => (i : Int) + 1) :=
  c5_serials_dense sampleRenderers sampleAtoms false false false _ (by decide)

/-- With a known previous chain `ch`, the loop's text is the spec-shaped
body preceded by a terminator exactly when the first atom's chain differs
from `ch`. -/
theorem printAtomsLoop_text (r : AtomRenderers) (cf pf cif : Bool) :
    ∀ (atoms : List FmtAtom) (i : Nat) (ch : String),
      (printAtomsLoop r cf pf cif atoms i (some ch)).1
        = (match atoms with
           | [] => []
           | b :: _ => if b.chain_id ≠ ch then ["TER\n"] else []) ++
          specChainBody (renderDialect r cf pf cif) atoms i := by
  intro atoms
  induction atoms with
  | nil => intro i ch; simp [printAtomsLoop, specChainBody]
  | cons b rest ih =>
    intro i ch
    simp only [printAtomsLoop]
    cases rest with
    | nil => simp [specChainBody, printAtomsLoop]
    | cons d rest' =>
      rw [ih (i + 1) b.chain_id]
      simp [specChainBody]

/-- Claim C6: the atom body contains a chain-terminator line exactly
between every pair of consecutive atoms whose chain identifiers differ and
nowhere else (it equals the spec-shaped `specChainBody`), and the final
`TER`-plus-`END` element is appended exactly for the non-CIF dialects. -/
theorem c6_chain_terminators (r : AtomRenderers) (atomlist : List FmtAtom)
    (chainflag pdbfile ciffile : Bool) (out : List String × List FmtAtom)
    (h : print_biomolecule_atoms r atomlist chainflag pdbfile ciffile = .ok out) :
    out.1 = specChainBody (renderDialect r chainflag pdbfile ciffile) atomlist 0
      ++ (if ciffile then [] else ["TER\nEND"]) := by
  unfold print_biomolecule_atoms at h
  split at h
  · exact absurd h (by simp)
  · simp only [Except.ok.injEq] at h
    subst h
    cases atomlist with
    | nil => cases ciffile <;> simp [printAtomsLoop, specChainBody]
    | cons a rest =>
      have hbody : (printAtomsLoop r chainflag pdbfile ciffile (a :: rest) 0 none).1
          = specChainBody (renderDialect r chainflag pdbfile ciffile) (a :: rest) 0 := by
        simp only [printAtomsLoop]
        cases rest with
        | nil => simp [specChainBody, printAtomsLoop]
        | cons d rest' =>
          rw [printAtomsLoop_text r chainflag pdbfile ciffile (d :: rest') 1 a.chain_id]
          simp [specChainBody]
      cases ciffile <;> simp [hbody]

/-- Claim C6 witness: chains A, A, B give one terminator between the
second and third atom, then the final terminator/end element. -/
theorem c6_chain_terminators_witness :
    ((["Q1\n", "Q2\n", "TER\n", "Q3\n", "TER\nEND"],
        [⟨1, "A"⟩, ⟨2, "A"⟩, ⟨3, "B"⟩]) : List String × List FmtAtom).1
      = specChainBody (renderDialect sampleRenderers false false false) sampleAtoms 0
        ++ (if false then [] else ["TER\nEND"]) :=
  c6_chain_terminators sampleRenderers sampleAtoms false false false _ (by decide)

/-- Unfolding equation of `test_for_file` for a present name. -/
theorem test_for_file_some (nm type_ : String) (sys_path : List String)
    (cwd : String) (force_fields : List String) (is_file : String → Bool) :
    test_for_file (some nm) type_ sys_path cwd force_fields is_file
      = match (tffCandidates nm type_ sys_path cwd).find? is_file with
        | some p => .ok (.filePath p)
        | none => .error ("Unable to find " ++ type_ ++ " file for "
            ++ (if force_fields.contains (strLower nm) then strUpper nm else nm)) := rfl

/-- Claim C9: a `None` name returns the empty string (not a path) without
raising, whatever the type argument; the not-found error is raised only for
non-`None` names and only after every name/suffix/directory candidate has
failed the file test. -/
theorem c9_none_name_empty (name : Option String) (type_ : String)
    (sys_path : List String) (cwd : String) (force_fields : List String)
    (is_file : String → Bool) :
    (name = none →
      test_for_file name type_ sys_path cwd force_fields is_file = .ok .emptyString)
    ∧ ∀ e, test_for_file name type_ sys_path cwd force_fields is_file = .error e →
        name ≠ none
        ∧ ∀ nm, name = some nm →
            (tffCandidates nm type_ sys_path cwd).all (fun p => !is_file p) = true := by
  constructor
  · intro h; subst h; rfl
  · intro e he
    cases name with
    | none => exact absurd he (by simp [test_for_file])
    | some nm =>
      refine ⟨by simp, fun nm' hnm' => ?_⟩
      cases hnm'
      rw [test_for_file_some] at he
      cases hf : (tffCandidates nm type_ sys_path cwd).find? is_file with
      | some p => rw [hf] at he; exact absurd he (by simp)
      | none =>
        have hnone := List.find?_eq_none.mp hf
        rw [List.all_eq_true]
        intro p hp
        simp [hnone p hp]

/-- Claim C9 witness: a `None` name comes back as the empty string, and an
error for name "x" implies every candidate failed the (all-false) file
test. -/
theorem c9_none_name_empty_witness :
    test_for_file none "DAT" [] "/cwd" [] (fun _ => false) = .ok .emptyString
    ∧ ((some "x" : Option String) ≠ none
       ∧ ∀ nm, (some "x" : Option String) = some nm →
           (tffCandidates nm "DAT" [] "/cwd").all
             (fun p => !(fun _ : String => false) p) = true) :=
  ⟨(c9_none_name_empty none "DAT" [] "/cwd" [] (fun _ => false)).1 rfl,
   (c9_none_name_empty (some "x") "DAT" [] "/cwd" [] (fun _ => false)).2
     "Unable to find DAT file for x" (by decide)⟩

/-- A line with no whitespace tokens makes the `read_dx` fold raise, from
any intermediate dictionary state. -/
theorem readDxFold_blank (lines : List String) (d : DxDict)
    (hex : ∃ l ∈ lines, pySplit l = []) :
    ∃ e, lines.foldlM processDxLine d = .error e := by
  induction lines generalizing d with
  | nil => rcases hex with ⟨l, hl, _⟩; exact absurd hl (by simp)
  | cons l rest ih =>
    rw [List.foldlM_cons]
    rcases hex with ⟨l', hl', hblank⟩
    rcases List.mem_cons.mp hl' with rfl | hmem
    · have h1 : processDxLine d l' = .error "IndexError: list index out of range" := by
        simp only [processDxLine]
        rw [hblank]
        rfl
      rw [h1]
      exact ⟨_, rfl⟩
    · cases hpd : processDxLine d l with
      | error e' => exact ⟨e', rfl⟩
      | ok d' => exact ih d' ⟨l', hmem, hblank⟩

/-- Claim C10: `read_dx` reads `words[0]` before any guard, so any input
containing a line with no whitespace tokens (empty or all-whitespace) makes
the call raise instead of skipping that line. -/
theorem c10_blank_line_raises (lines : List String) (l : String)
    (hmem : l ∈ lines) (hblank : pySplit l = []) :
    ∃ e, read_dx lines = .error e :=
  readDxFold_blank lines _ ⟨l, hmem, hblank⟩

/-- Claim C10 witness: the input `["# c", ""]` (second line empty) makes
`read_dx` raise. -/
theorem c10_blank_line_raises_witness :
    ("" ∈ ["# c", ""] ∧ pySplit "" = ([] : List String))
    ∧ ∃ e, read_dx ["# c", ""] = .error e :=
  ⟨⟨by decide, by decide⟩,
   c10_blank_line_raises ["# c", ""] "" (by decide) (by decide)⟩

/-- A `filterMap` with an if-some-else-none body keeps exactly the satisfying
elements. -/
theorem length_filterMap_ite {α β : Type} (p : α → Prop) [DecidablePred p]
    (f : α → β) :
    ∀ l : List α,
      (l.filterMap fun x => if p x then some (f x) else none).length
        = l.countP fun x => decide (p x)
  | [] => rfl
  | a :: l => by
    by_cases h : p a
    · simp [List.filterMap_cons, List.countP_cons, h, length_filterMap_ite p f l]
    · simp [List.filterMap_cons, List.countP_cons, h, length_filterMap_ite p f l]

/-- Claim C4 (amended): a line is accepted exactly when its
whitespace-tokenized length is 23 or 25; the function returns twenty-one
(not eighteen) named column sequences, all of equal length, with one entry
per accepted line. -/
theorem c4_twentyone_equal_columns (pdb_lines : List String) :
    (generate_atom_site_columns pdb_lines).length = 21
    ∧ (generate_atom_site_columns pdb_lines).all
        (fun p => p.2.length
          = pdb_lines.countP fun l =>
              decide ((pySplit l).length = 23 ∨ (pySplit l).length = 25)) = true := by
  constructor
  · simp [generate_atom_site_columns, atom_site_col_idx]
  · rw [List.all_eq_true]
    intro p hp
    simp only [generate_atom_site_columns] at hp
    obtain ⟨spec, hspec, rfl⟩ := List.mem_map.mp hp
    rw [decide_eq_true_eq]
    exact length_filterMap_ite _ _ pdb_lines


/-- The function `digitChar` never yields a newline. -/
theorem digitChar_ne_nl (n : Nat) : digitChar n ≠ '\n' := by
  unfold digitChar
  split <;> decide

/-- The decimal digit expansion contains no newline. -/
theorem natDigitsAux_nl (fuel : Nat) : ∀ n, '\n' ∉ natDigitsAux fuel n := by
  induction fuel with
  | zero => intro n h; simp [natDigitsAux] at h
  | succ f ih =>
    intro n h
    simp only [natDigitsAux] at h
    by_cases hn : n < 10
    · rw [if_pos hn, List.mem_singleton] at h
      exact digitChar_ne_nl n h.symm
    · rw [if_neg hn, List.mem_append] at h
      rcases h with h1 | h2
      · exact ih _ h1
      · rw [List.mem_singleton] at h2
        exact digitChar_ne_nl _ h2.symm

/-- The rendering `natRepr` contains no newline. -/
theorem natRepr_nl (n : Nat) : '\n' ∉ (natRepr n).data := natDigitsAux_nl _ _

/-- Appending strings appends their character data. -/
theorem strData_append (a b : String) : (a ++ b).data = a.data ++ b.data := rfl

/-- No newline in either part, no newline in the concatenation. -/
theorem append_nl {a b : String} (ha : '\n' ∉ a.data) (hb : '\n' ∉ b.data) :
    '\n' ∉ (a ++ b).data := by
  intro h
  rw [strData_append, List.mem_append] at h
  rcases h with h | h
  · exact ha h
  · exact hb h

/-- No newline in either branch, no newline in the conditional. -/
theorem ite_nl (c : Prop) [Decidable c] (s t : String)
    (hs : '\n' ∉ s.data) (ht : '\n' ∉ t.data) :
    '\n' ∉ (if c then s else t).data := by
  split
  · exact hs
  · exact ht

/-- Zero padding introduces no newline. -/
theorem padZeros_nl (w : Nat) {s : String} (hs : '\n' ∉ s.data) :
    '\n' ∉ (padZeros w s).data := by
  intro h
  rcases List.mem_append.mp h with h1 | h2
  · rcases (List.mem_replicate.mp h1) with ⟨_, h'⟩
    exact absurd h' (by decide)
  · exact hs h2

/-- Left-justification padding introduces no newline. -/
theorem ljust_nl (w : Nat) {s : String} (hs : '\n' ∉ s.data) :
    '\n' ∉ (ljust w s).data := by
  intro h
  rcases List.mem_append.mp h with h1 | h2
  · exact hs h1
  · rcases (List.mem_replicate.mp h2) with ⟨_, h'⟩
    exact absurd h' (by decide)

/-- The scientific rendering contains no newline. -/
theorem pySci5Abs_nl (q : Flt) : '\n' ∉ (pySci5Abs q).data := by
  unfold pySci5Abs
  split
  · decide
  · exact append_nl
      (append_nl
        (append_nl
          (append_nl (natRepr_nl _) (by decide))
          (padZeros_nl 5 (natRepr_nl _)))
        (by decide))
      (append_nl (ite_nl _ "-" "+" (by decide) (by decide))
        (padZeros_nl 2 (natRepr_nl _)))

/-- The 13-wide value field contains no newline. -/
theorem pyFmtE13_nl (q : Flt) : '\n' ∉ (pyFmtE13 q).data :=
  ljust_nl 13 (append_nl (ite_nl _ "-" " " (by decide) (by decide)) (pySci5Abs_nl q))

/-- A space-joined list of newline-free strings is newline-free. -/
theorem interGap_nl : ∀ (l : List String), (∀ s ∈ l, '\n' ∉ s.data) →
    '\n' ∉ (strIntercalate " " l).data
  | [], _ => by decide
  | [x], h => h x (by simp)
  | x :: y :: ys, h =>
    append_nl (append_nl (h x (by simp)) (by decide))
      (interGap_nl (y :: ys) fun s hs => h s (List.mem_cons_of_mem _ hs))

/-- A rendered chunk line contains no newline. -/
theorem chunkLine_nl (c : List Flt) :
    '\n' ∉ (strIntercalate " " (c.map pyFmtE13)).data :=
  interGap_nl _ fun s hs => by
    obtain ⟨v, _, rfl⟩ := List.mem_map.mp hs
    exact pyFmtE13_nl v

/-- With sufficient fuel, the value-writing loop produces exactly the
newline-joined chunk lines. -/
theorem writeValueLinesAux_chunks : ∀ (fuel : Nat) (values : List Flt),
    values.length ≤ fuel →
    writeValueLinesAux fuel values
      = strIntercalate "\n" ((chunksOfSixAux fuel values).map fun c =>
          strIntercalate " " (c.map pyFmtE13)) := by
  intro fuel
  induction fuel with
  | zero =>
    intro values h
    cases values with
    | nil => rfl
    | cons v tl => simp at h
  | succ f ih =>
    intro values h
    cases values with
    | nil => rfl
    | cons v tl =>
      simp only [writeValueLinesAux, chunksOfSixAux]
      by_cases hr : ((v :: tl).drop 6).isEmpty
      · rw [if_pos hr]
        have hd : (v :: tl).drop 6 = [] := by
          cases he : (v :: tl).drop 6 with
          | nil => rfl
          | cons w ws => rw [he] at hr; simp [List.isEmpty] at hr
        rw [hd]
        simp [chunksOfSixAux, strIntercalate]
      · rw [if_neg hr]
        have hd : (v :: tl).drop 6 ≠ [] := by
          intro he; rw [he] at hr; simp [List.isEmpty] at hr
        have h' : tl.length ≤ f := by simpa using h
        have hlen : ((v :: tl).drop 6).length ≤ f := by
          rw [List.length_drop]
          simp only [List.length_cons]
          omega
        rw [ih _ hlen]
        obtain ⟨w, ws, hw⟩ := List.exists_cons_of_ne_nil hd
        cases f with
        | zero =>
          rw [hw] at hlen
          simp at hlen
        | succ g =>
          rw [hw]
          simp only [chunksOfSixAux, List.map_cons]
          rfl

/-- Claim C8 (amended): `write_cube` emits the flattened values after the
header in chunks of 6 per line; each value is rendered by `pyFmtE13` —
scientific notation with 5 decimal digits, a sign slot holding `-` for
negatives and a blank for non-negatives, left-justified (not
right-justified) in the 13-character field — and since no chunk line
contains a newline, no line break follows the final chunk. -/
theorem c8_value_block_layout (data : DxDict) (atom_list : List CubeAtom)
    (comment : String) :
    write_cube data atom_list comment
      = Except.map (fun head => head ++ strIntercalate "\n"
          ((chunksOfSix data.values).map fun c =>
            strIntercalate " " (c.map pyFmtE13)))
        (writeCubeHead data atom_list comment)
    ∧ ∀ c ∈ chunksOfSix data.values,
        (strIntercalate " " (c.map pyFmtE13)).data.contains '\n' = false := by
  constructor
  · unfold write_cube
    cases hh : writeCubeHead data atom_list comment with
    | error e => rfl
    | ok head =>
      show Except.ok (head ++ writeValueLines data.values) = _
      rw [writeValueLines, writeValueLinesAux_chunks _ _ (le_refl _)]
      rfl
  · intro c _
    rw [Bool.eq_false_iff]
    intro hcont
    exact chunkLine_nl c (List.elem_iff.mp hcont)

/-- Claim C8 witness: on the one-value grid the block is the single chunk
line for `1.0`, which indeed contains no newline. -/
theorem c8_value_block_layout_witness :
    write_cube sampleGrid [] "c"
      = Except.map (fun head => head ++ strIntercalate "\n"
          ((chunksOfSix sampleGrid.values).map fun c =>
            strIntercalate " " (c.map pyFmtE13)))
        (writeCubeHead sampleGrid [] "c")
    ∧ [(⟨1, 1⟩ : Flt)] ∈ chunksOfSix sampleGrid.values
    ∧ (strIntercalate " " ([(⟨1, 1⟩ : Flt)].map pyFmtE13)).data.contains '\n'
        = false :=
  ⟨(c8_value_block_layout sampleGrid [] "c").1, by decide,
   (c8_value_block_layout sampleGrid [] "c").2 [⟨1, 1⟩] (by decide)⟩

end Pdb2Pqr
